import Mathlib

/-!
Shallow embedding of the dka-assistance data-access layer.

The Python source stores rows in SQLite tables.  Here a stored value is a
`PyVal` (SQL NULL is `PyVal.none`), a row and a caller payload are
association lists from column name to value (Python dicts; first occurrence
wins on lookup), a table is its list of rows together with the
autoincrement counter, and a store is `Option Table` where `none` means the
table has not been created in the database file.  Mutating operations
return the raised exception (as an `Err` value) together with the resulting
store; an exception rolls the transaction back, so the error branches
return the input store unchanged.  SQLite specifics modelled: `NOT NULL`
column constraints, the `UNIQUE` constraint on `patients.hn` at insert,
`no such table` / `no such column` query failures, missing named-parameter
bindings, and `cursor.rowcount` counting the rows matched by an UPDATE or
DELETE.  Not modelled (no claim depends on them): connection failures,
UNIQUE re-checks on UPDATE, and SQLite type affinity.
-/

namespace DKA

/-- A Python/SQLite value: NULL, integer, real (modelled as a rational) or text. -/
inductive PyVal where
  | none
  | int (n : Int)
  | real (q : Rat)
  | str (s : String)
deriving DecidableEq, Repr

/-- A caller payload: a Python dict from field name to value. -/
abbrev Payload := List (String × PyVal)

/-- A stored row: column name to value, every column of the table present. -/
abbrev Row := List (String × PyVal)

/-- Dict lookup, first occurrence wins (Python dicts have unique keys). -/
def lookup? (p : Payload) (k : String) : Option PyVal :=
  match p with
  | [] => none
  | (k', v) :: rest => if k' = k then some v else lookup? rest k

/-- Python `d.get(k, None)`: lookup defaulting to NULL. -/
def lookupD (p : Payload) (k : String) : PyVal :=
  (lookup? p k).getD .none

/-- Python `k in d`. -/
def hasKey (p : Payload) (k : String) : Bool :=
  (lookup? p k).isSome

/-- Python `d.keys()` in insertion order. -/
def keysOf (p : Payload) : List String :=
  p.map Prod.fst

/-- Numeric view of a value (ints and reals compare numerically in SQLite). -/
def PyVal.toRat? : PyVal → Option Rat
  | .int n => some (n : Rat)
  | .real q => some q
  | _ => Option.none

/-- SQL `=` on stored values: NULL equals nothing, numerics compare
numerically across int/real, text compares exactly. -/
def sqlEq (v w : PyVal) : Bool :=
  match v.toRat?, w.toRat? with
  | some a, some b => decide (a = b)
  | _, _ =>
    match v, w with
    | .str a, .str b => decide (a = b)
    | _, _ => false

/-- One SQLite table: its rows plus the next AUTOINCREMENT rowid. -/
structure Table where
  rows : List Row
  nextId : Int
deriving DecidableEq, Repr

/-- A freshly created table. -/
def Table.empty : Table := ⟨[], 1⟩

/-- The state of one table in the database file; `none`: not created yet. -/
abbrev Store := Option Table

/-- The exceptions raised by the access layer (`data_access_util.py` hierarchy
plus the Python builtins it lets escape). -/
inductive Err where
  | valueError (msg : String)
  | queryError (msg : String)
  | recordNotFound (msg : String)
  | notImplemented (msg : String)
  | databaseError (msg : String)
  | typeError (msg : String)
deriving DecidableEq, Repr

/-- Read a column of a row (NULL when absent; rows built here are complete). -/
def rowGet (r : Row) (k : String) : PyVal :=
  lookupD r k

/-- One SQL `SET k = v` assignment applied to a row. -/
def rowSet (r : Row) (k : String) (v : PyVal) : Row :=
  r.map (fun p => if p.1 = k then (p.1, v) else p)

/-- Apply the whole SET clause: each key in order, value given by `valOf`. -/
def applyKeys (r : Row) (ks : List String) (valOf : String → PyVal) : Row :=
  ks.foldl (fun acc k => rowSet acc k (valOf k)) r

/-- SQL `SELECT * FROM t WHERE idCol = idv` followed by `fetchone()`. -/
def selectById (t : Table) (idCol : String) (idv : Int) : Option Row :=
  (t.rows.filter (fun r => sqlEq (rowGet r idCol) (.int idv))).head?

/-- Rows matched by `WHERE idCol = idv` (SQLite `cursor.rowcount`). -/
def matchCount (t : Table) (idCol : String) (idv : Int) : Nat :=
  (t.rows.filter (fun r => sqlEq (rowGet r idCol) (.int idv))).length

/-- SQL `CREATE TABLE IF NOT EXISTS`: keeps an existing table, else creates it empty. -/
def createIfNotExists (st : Store) : Store :=
  some (st.getD Table.empty)

/-- Does a row violate any of the given NOT NULL columns? -/
def violatesNotNull (nn : List String) (r : Row) : Bool :=
  nn.any (fun c => decide (rowGet r c = PyVal.none))

/-- Number of rows currently in the store (0 when the table does not exist). -/
def storeRowCount (st : Store) : Nat :=
  match st with
  | none => 0
  | some t => t.rows.length

/-! ### PatientDataAccess (`patient_data_access.py`) -/

/-- Columns of the `patients` table. -/
def patientColumns : List String :=
  ["patient_id", "hn", "name", "age", "sex", "medical_history"]

/-- NOT NULL columns of `patients`. -/
def patientNotNull : List String :=
  ["hn", "name", "age", "sex"]

/-- Required payload keys checked by `PatientDataAccess.insert`. -/
def patientRequiredKeys : List String :=
  ["hn", "name", "age", "sex"]

/-- The row written by `PatientDataAccess.insert` (all six columns bound). -/
def mkPatientRow (idv : Int) (hn nm age sex mh : PyVal) : Row :=
  [("patient_id", .int idv), ("hn", hn), ("name", nm), ("age", age),
   ("sex", sex), ("medical_history", mh)]

/-- Model of `PatientDataAccess.create_table`: `CREATE TABLE IF NOT EXISTS patients ...`. -/
def patientCreateTable (st : Store) : Store :=
  createIfNotExists st

/-- Model of `PatientDataAccess.insert`: required-key check (before any storage
access), then the parameterized INSERT; `medical_history` defaults to NULL
via `data.get`.  SQLite enforces NOT NULL and the UNIQUE constraint on `hn`. -/
def patientInsert (st : Store) (data : Payload) : Except Err Int × Store :=
  if patientRequiredKeys.all (fun k => hasKey data k) then
    match st with
    | none => (.error (.queryError "no such table: patients"), st)
    | some t =>
      let hn := lookupD data "hn"
      let nm := lookupD data "name"
      let age := lookupD data "age"
      let sex := lookupD data "sex"
      let mh := lookupD data "medical_history"
      if hn = .none ∨ nm = .none ∨ age = .none ∨ sex = .none then
        (.error (.queryError "NOT NULL constraint failed: patients"), st)
      else if t.rows.any (fun r => sqlEq (rowGet r "hn") hn) then
        (.error (.queryError "UNIQUE constraint failed: patients.hn"), st)
      else
        (.ok t.nextId, some ⟨t.rows ++ [mkPatientRow t.nextId hn nm age sex mh], t.nextId + 1⟩)
  else
    (.error (.valueError "Missing required keys for patient insert"), st)

/-- Model of `PatientDataAccess.get_by_id`: `SELECT ... WHERE patient_id = ?`, `None`
when no row matches. -/
def patientGetById (st : Store) (pid : Int) : Except Err (Option Row) :=
  match st with
  | none => .error (.queryError "no such table: patients")
  | some t => .ok (selectById t "patient_id" pid)

/-- Value bound for key `k` in the patient UPDATE: `update_params` is a copy
of the payload with `update_params["patient_id"] = patient_id` written last,
so a payload key `patient_id` is overwritten by the function argument. -/
def patientUpdateVal (data : Payload) (pid : Int) (k : String) : PyVal :=
  if k = "patient_id" then .int pid else lookupD data k

/-- Model of `PatientDataAccess.update`: empty-payload check, then an existence check
raising `RecordNotFoundError`, then a dynamic `SET` built from the payload
keys; returns whether a row was matched. -/
def patientUpdate (st : Store) (pid : Int) (data : Payload) : Except Err Bool × Store :=
  if data = [] then
    (.error (.valueError "No data provided for patient update."), st)
  else
    match st with
    | none => (.error (.queryError "no such table: patients"), st)
    | some t =>
      if (selectById t "patient_id" pid).isNone then
        (.error (.recordNotFound "Cannot update patient. Record not found."), st)
      else if (keysOf data).all (fun k => patientColumns.contains k) then
        let upd : Row → Row := fun r => applyKeys r (keysOf data) (patientUpdateVal data pid)
        if t.rows.any (fun r =>
            sqlEq (rowGet r "patient_id") (.int pid) && violatesNotNull patientNotNull (upd r)) then
          (.error (.queryError "NOT NULL constraint failed: patients"), st)
        else
          (.ok (decide (0 < matchCount t "patient_id" pid)),
           some ⟨t.rows.map (fun r =>
             if sqlEq (rowGet r "patient_id") (.int pid) then upd r else r), t.nextId⟩)
      else
        (.error (.queryError "no such column in patients"), st)

/-- Model of `PatientDataAccess.delete`: `DELETE ... WHERE patient_id = ?`; returns
whether a row was removed. -/
def patientDelete (st : Store) (pid : Int) : Except Err Bool × Store :=
  match st with
  | none => (.error (.queryError "no such table: patients"), st)
  | some t =>
    (.ok (decide (0 < matchCount t "patient_id" pid)),
     some ⟨t.rows.filter (fun r => !(sqlEq (rowGet r "patient_id") (.int pid))), t.nextId⟩)

/-- SQLite ordering class of a value: NULL, then numerics, then text. -/
def PyVal.typeRank : PyVal → Nat
  | .none => 0
  | .int _ => 1
  | .real _ => 1
  | .str _ => 2

/-- SQLite `ORDER BY` comparison on stored values. -/
def pyLe (v w : PyVal) : Bool :=
  if v.typeRank = w.typeRank then
    match v.toRat?, w.toRat? with
    | some a, some b => decide (a ≤ b)
    | _, _ =>
      match v, w with
      | .str a, .str b => decide (a ≤ b)
      | _, _ => true
  else
    decide (v.typeRank ≤ w.typeRank)

/-- Order rows by one column. -/
def rowLeBy (c : String) (r s : Row) : Bool :=
  pyLe (rowGet r c) (rowGet s c)

/-- Insert a row into a sorted list of rows. -/
def insertSorted (le : Row → Row → Bool) (r : Row) : List Row → List Row
  | [] => [r]
  | x :: xs => if le r x then r :: x :: xs else x :: insertSorted le r xs

/-- Insertion sort, modelling `ORDER BY`. -/
def sortRows (le : Row → Row → Bool) : List Row → List Row
  | [] => []
  | x :: xs => insertSorted le x (sortRows le xs)

/-- Model of `PatientDataAccess.get_all`: `SELECT ... ORDER BY name`. -/
def patientGetAll (st : Store) : Except Err (List Row) :=
  match st with
  | none => .error (.queryError "no such table: patients")
  | some t => .ok (sortRows (rowLeBy "name") t.rows)

/-! ### LabDataAccess (`lab_data_access.py`)

The backing `lab_results` table is the one the bootstrap script
(`initialize_database.py`) creates, with the `ag`/`ketone` columns; the
accessor's own INSERT binds only the seven columns
`logtime, sampled_time, result_time, dtx, ph, k, na`, so `patient_id`,
`ag` and `ketone` are stored as NULL. -/

/-- Columns of the `lab_results` table (bootstrap schema). -/
def labColumns : List String :=
  ["id", "patient_id", "logtime", "sampled_time", "result_time",
   "dtx", "ph", "k", "na", "ag", "ketone"]

/-- NOT NULL columns of `lab_results`. -/
def labNotNull : List String :=
  ["logtime", "sampled_time", "result_time"]

/-- Required payload keys checked by `LabDataAccess.insert`. -/
def labInsertRequired : List String :=
  ["logtime", "dtx", "ph", "k", "na"]

/-- The row written by `LabDataAccess.insert`: the seven bound columns take
the payload values; `patient_id`, `ag`, `ketone` are not in the INSERT's
column list and stay NULL. -/
def mkLabRow (idv : Int) (data : Payload) : Row :=
  [("id", .int idv), ("patient_id", .none),
   ("logtime", lookupD data "logtime"), ("sampled_time", lookupD data "sampled_time"),
   ("result_time", lookupD data "result_time"), ("dtx", lookupD data "dtx"),
   ("ph", lookupD data "ph"), ("k", lookupD data "k"), ("na", lookupD data "na"),
   ("ag", .none), ("ketone", .none)]

/-- Model of `LabDataAccess.create_table`: issues `CREATE TABLE IF NOT EXISTS`. -/
def labCreateTable (st : Store) : Store :=
  createIfNotExists st

/-- Model of `LabDataAccess.insert`: required-key check, then the parameterized
INSERT.  The statement also names `:sampled_time` and `:result_time`, so a
payload missing those keys fails at binding time with a Query failure; the
negative-value checks live in `LabResult.validate_input`, not here. -/
def labInsert (st : Store) (data : Payload) : Except Err Int × Store :=
  if labInsertRequired.all (fun k => hasKey data k) then
    match st with
    | none => (.error (.queryError "no such table: lab_results"), st)
    | some t =>
      if hasKey data "sampled_time" && hasKey data "result_time" then
        if lookupD data "logtime" = .none ∨ lookupD data "sampled_time" = .none ∨
            lookupD data "result_time" = .none then
          (.error (.queryError "NOT NULL constraint failed: lab_results"), st)
        else
          (.ok t.nextId, some ⟨t.rows ++ [mkLabRow t.nextId data], t.nextId + 1⟩)
      else
        (.error (.queryError "you did not supply a value for binding"), st)
  else
    (.error (.valueError "Missing required keys for insert"), st)

/-- Model of `LabDataAccess.get_by_id`: the statement is
`SELECT * FROM lab_results WHERE patient_id = ?` — it filters on
`patient_id`, not on the primary-key column `id`. -/
def labGetById (st : Store) (recordId : Int) : Except Err (Option Row) :=
  match st with
  | none => .error (.queryError "no such table: lab_results")
  | some t => .ok (selectById t "patient_id" recordId)

/-- Value bound for key `k` in the lab UPDATE (`update_data["id"] = record_id`
is written last, overwriting a payload key `id`). -/
def labUpdateVal (data : Payload) (rid : Int) (k : String) : PyVal :=
  if k = "id" then .int rid else lookupD data k

/-- Model of `LabDataAccess.update`: empty-payload check, existence check through the
accessor's own `get_by_id` (hence keyed on `patient_id`), then
`UPDATE lab_results SET ... WHERE id = :id`. -/
def labUpdate (st : Store) (rid : Int) (data : Payload) : Except Err Bool × Store :=
  if data = [] then
    (.error (.valueError "No data provided for update."), st)
  else
    match st with
    | none => (.error (.queryError "no such table: lab_results"), st)
    | some t =>
      if (selectById t "patient_id" rid).isNone then
        (.error (.recordNotFound "Cannot update. Record not found."), st)
      else if (keysOf data).all (fun k => labColumns.contains k) then
        let upd : Row → Row := fun r => applyKeys r (keysOf data) (labUpdateVal data rid)
        if t.rows.any (fun r =>
            sqlEq (rowGet r "id") (.int rid) && violatesNotNull labNotNull (upd r)) then
          (.error (.queryError "NOT NULL constraint failed: lab_results"), st)
        else
          (.ok (decide (0 < matchCount t "id" rid)),
           some ⟨t.rows.map (fun r =>
             if sqlEq (rowGet r "id") (.int rid) then upd r else r), t.nextId⟩)
      else
        (.error (.queryError "no such column in lab_results"), st)

/-- Model of `LabDataAccess.delete`: `DELETE FROM lab_results WHERE id = ?`. -/
def labDelete (st : Store) (rid : Int) : Except Err Bool × Store :=
  match st with
  | none => (.error (.queryError "no such table: lab_results"), st)
  | some t =>
    (.ok (decide (0 < matchCount t "id" rid)),
     some ⟨t.rows.filter (fun r => !(sqlEq (rowGet r "id") (.int rid))), t.nextId⟩)

/-! ### TransactionalDataAccess (`data_access_util.py`) -/

/-- The per-table data a `TransactionalDataAccess` instance carries. -/
structure TableSpec where
  columns : List String
  notNull : List String
  idCol : String

/-- Model of `TransactionalDataAccess.create_table`: `CREATE TABLE IF NOT EXISTS`. -/
def txCreateTable (st : Store) : Store :=
  createIfNotExists st

/-- Model of `TransactionalDataAccess.insert`: INSERT whose column list is the
payload's keys verbatim; unnamed columns default to NULL, the id column is
assigned from the autoincrement counter, and SQLite enforces NOT NULL. -/
def txInsert (spec : TableSpec) (st : Store) (data : Payload) : Except Err Int × Store :=
  match st with
  | none => (.error (.queryError "no such table"), st)
  | some t =>
    if (keysOf data).all (fun k => spec.columns.contains k) then
      let newRow : Row := spec.columns.map (fun c =>
        (c, if c = spec.idCol then PyVal.int t.nextId else lookupD data c))
      if violatesNotNull spec.notNull newRow then
        (.error (.queryError "NOT NULL constraint failed"), st)
      else
        (.ok t.nextId, some ⟨t.rows ++ [newRow], t.nextId + 1⟩)
    else
      (.error (.queryError "no such column"), st)

/-- Model of `TransactionalDataAccess.get_by_id`: `WHERE {id_column_name} = ?`. -/
def txGetById (spec : TableSpec) (st : Store) (rid : Int) : Except Err (Option Row) :=
  match st with
  | none => .error (.queryError "no such table")
  | some t => .ok (selectById t spec.idCol rid)

/-- Value bound for key `k` in the generic UPDATE (`update_data["id"] =
record_id` overwrites a payload key `id`). -/
def txUpdateVal (data : Payload) (rid : Int) (k : String) : PyVal :=
  if k = "id" then .int rid else lookupD data k

/-- Model of `TransactionalDataAccess.update`: empty-payload check, dynamic `SET`
from the payload keys, `WHERE {id_column_name} = :id`; no existence check —
an unmatched id just reports `False` through `cursor.rowcount`. -/
def txUpdate (spec : TableSpec) (st : Store) (rid : Int) (data : Payload) :
    Except Err Bool × Store :=
  if data = [] then
    (.error (.valueError "No data provided for update."), st)
  else
    match st with
    | none => (.error (.queryError "no such table"), st)
    | some t =>
      if (keysOf data).all (fun k => spec.columns.contains k) then
        let upd : Row → Row := fun r => applyKeys r (keysOf data) (txUpdateVal data rid)
        if t.rows.any (fun r =>
            sqlEq (rowGet r spec.idCol) (.int rid) && violatesNotNull spec.notNull (upd r)) then
          (.error (.queryError "NOT NULL constraint failed"), st)
        else
          (.ok (decide (0 < matchCount t spec.idCol rid)),
           some ⟨t.rows.map (fun r =>
             if sqlEq (rowGet r spec.idCol) (.int rid) then upd r else r), t.nextId⟩)
      else
        (.error (.queryError "no such column"), st)

/-- Model of `TransactionalDataAccess.delete`. -/
def txDelete (spec : TableSpec) (st : Store) (rid : Int) : Except Err Bool × Store :=
  match st with
  | none => (.error (.queryError "no such table"), st)
  | some t =>
    (.ok (decide (0 < matchCount t spec.idCol rid)),
     some ⟨t.rows.filter (fun r => !(sqlEq (rowGet r spec.idCol) (.int rid))), t.nextId⟩)

/-! ### TreatmentDataAccess (`treatment_data_access.py`) -/

/-- The `treatment` table spec the accessor passes to its base class. -/
def treatmentSpec : TableSpec :=
  { columns := ["id", "patient_id", "logtime", "administored_time", "end_time",
                "treatment_id", "application_method_id", "administration_rate"]
    notNull := ["logtime", "administored_time", "end_time",
                "treatment_id", "application_method_id"]
    idCol := "id" }

/-- The seven payload keys `TreatmentDataAccess` knows about (also its
required-key set for insert). -/
def treatmentFields : List String :=
  ["patient_id", "logtime", "administored_time", "end_time",
   "treatment_id", "application_method_id", "administration_rate"]

/-- Model of `TreatmentDataAccess.create_table`: it is overridden to `pass`: it issues no
statement at all. -/
def treatmentCreateTable (st : Store) : Store :=
  st

/-- Model of `initialize_database.py` creating the `treatment` table
(`CREATE TABLE IF NOT EXISTS treatment ...`) — the external bootstrap. -/
def bootstrapTreatmentTable (st : Store) : Store :=
  createIfNotExists st

/-- Model of `TreatmentDataAccess.insert`: required-key check, the negative
`administration_rate` check (a non-numeric, non-None rate would raise
`TypeError` in the Python comparison), then the base-class insert on the
seven known fields. -/
def treatmentInsert (st : Store) (data : Payload) : Except Err Int × Store :=
  if treatmentFields.all (fun k => hasKey data k) then
    match (lookupD data "administration_rate").toRat? with
    | some q =>
      if q < 0 then
        (.error (.valueError "administration_rate value cannot be negative."), st)
      else
        txInsert treatmentSpec st (treatmentFields.map (fun k => (k, lookupD data k)))
    | Option.none =>
      if lookupD data "administration_rate" = .none then
        txInsert treatmentSpec st (treatmentFields.map (fun k => (k, lookupD data k)))
      else
        (.error (.typeError "comparison of non-numeric administration_rate"), st)
  else
    (.error (.valueError "Missing required keys for insert"), st)

/-- Model of `TreatmentDataAccess.get_by_id`: delegates to the base class. -/
def treatmentGetById (st : Store) (rid : Int) : Except Err (Option Row) :=
  txGetById treatmentSpec st rid

/-- The payload `TreatmentDataAccess.update` forwards: `data.get(k)` for each
of the seven known fields, then `{k: v for k, v in ... if v is not None}` —
null values and unknown keys are silently dropped. -/
def treatmentFilteredPayload (data : Payload) : Payload :=
  (treatmentFields.map (fun k => (k, lookupD data k))).filter
    (fun p => decide (p.2 ≠ PyVal.none))

/-- Model of `TreatmentDataAccess.update`: empty-payload check on the raw payload,
then the base-class update on the filtered payload. -/
def treatmentUpdate (st : Store) (rid : Int) (data : Payload) : Except Err Bool × Store :=
  if data = [] then
    (.error (.valueError "No data provided for update."), st)
  else
    txUpdate treatmentSpec st rid (treatmentFilteredPayload data)

/-- Model of `TreatmentDataAccess.delete`: delegates to the base class. -/
def treatmentDelete (st : Store) (rid : Int) : Except Err Bool × Store :=
  txDelete treatmentSpec st rid

/-! ### DimensionalDataAccess (`data_access_util.py`) -/

/-- Model of `DimensionalDataAccess.create_table`: `CREATE TABLE IF NOT EXISTS`. -/
def dimCreateTable (st : Store) : Store :=
  createIfNotExists st

/-- Model of `DimensionalDataAccess.insert`: raises `NotImplementedError`
unconditionally, before any storage access. -/
def dimInsert (st : Store) (_data : Payload) : Except Err Int × Store :=
  (.error (.notImplemented "Insert operation is not allowed on dimension tables."), st)

/-- Model of `DimensionalDataAccess.update`: raises `NotImplementedError`
unconditionally, before any storage access. -/
def dimUpdate (st : Store) (_rid : Int) (_data : Payload) : Except Err Bool × Store :=
  (.error (.notImplemented "Update operation is not allowed on dimension tables."), st)

/-- Model of `DimensionalDataAccess.delete`: raises `NotImplementedError`
unconditionally, before any storage access. -/
def dimDelete (st : Store) (_rid : Int) : Except Err Bool × Store :=
  (.error (.notImplemented "Delete operation is not allowed on dimension tables."), st)

/-! ### LabResult.validate_input (`input_output_utils.py`)

The validation routine the UI layer runs before calling the lab accessor.
The measurement arguments are numbers or None (`Option Rat` here); the two
date arguments are reduced to their truthiness, which is all `not d` reads. -/

/-- Is the optional measurement present and negative? -/
def negMeasure (o : Option Rat) : Bool :=
  match o with
  | some x => decide (x < 0)
  | Option.none => false

/-- Model of `LabResult.validate_input`, appending error strings in source order. -/
def labValidateInput (dtx ph k na ag ketone : Option Rat)
    (sampledDate resultDate : Bool) : List String :=
  (if sampledDate then [] else ["Sampled date is required."]) ++
  (if resultDate then [] else ["Result date is required."]) ++
  (if negMeasure dtx then ["Dextrostix cannot be negative."] else []) ++
  (if (match ph with
       | some x => decide (x < 0) || decide (14 < x)
       | Option.none => false) then ["pH level must be between 0 and 14."] else []) ++
  (if negMeasure k then ["Potassium level cannot be negative."] else []) ++
  (if negMeasure na then ["Sodium level cannot be negative."] else []) ++
  (if negMeasure ag then ["Anion gap cannot be negative."] else []) ++
  (if negMeasure ketone then ["Ketone level cannot be negative."] else [])

/-! ### Helper lemmas -/

/-- A SET assignment on key `k` does not touch a different column `c`. -/
theorem lookup_rowSet_ne (r : Row) (k : String) (v : PyVal) (c : String) (h : c ≠ k) :
    lookup? (rowSet r k v) c = lookup? r c := by
  induction r with
  | nil => rfl
  | cons p rest ih =>
    obtain ⟨k', v'⟩ := p
    have hrow : rowSet ((k', v') :: rest) k v
        = (if k' = k then (k', v) else (k', v')) :: rowSet rest k v := rfl
    rw [hrow]
    by_cases hk : k' = k
    · rw [if_pos hk]
      show (if k' = c then some v else lookup? (rowSet rest k v) c)
          = (if k' = c then some v' else lookup? rest c)
      have hck : ¬ k' = c := fun hc => h (hc.symm.trans hk)
      rw [if_neg hck, if_neg hck]
      exact ih
    · rw [if_neg hk]
      show (if k' = c then some v' else lookup? (rowSet rest k v) c)
          = (if k' = c then some v' else lookup? rest c)
      by_cases hc : k' = c
      · rw [if_pos hc, if_pos hc]
      · rw [if_neg hc, if_neg hc]
        exact ih

theorem rowGet_applyKeys_notMem (r : Row) (ks : List String) (f : String → PyVal)
    (c : String) (hc : c ∉ ks) :
    rowGet (applyKeys r ks f) c = rowGet r c := by
  induction ks generalizing r with
  | nil => rfl
  | cons k rest ih =>
    have hck : c ≠ k := fun h => hc (h ▸ List.mem_cons_self k rest)
    have hcr : c ∉ rest := fun h => hc (List.mem_cons_of_mem k h)
    show rowGet (applyKeys (rowSet r k (f k)) rest f) c = rowGet r c
    rw [ih (rowSet r k (f k)) hcr]
    simp [rowGet, lookupD, lookup_rowSet_ne r k (f k) c hck]

theorem forall2_update_frame (rows : List Row) (p : Row → Bool)
    (ks : List String) (f : String → PyVal) (c : String) (hc : c ∉ ks) :
    List.Forall₂ (fun old new => rowGet new c = rowGet old c) rows
      (rows.map (fun r => if p r then applyKeys r ks f else r)) := by
  rw [List.forall₂_map_right_iff, List.forall₂_same]
  intro r _
  by_cases hp : p r
  · simp [hp, rowGet_applyKeys_notMem r ks f c hc]
  · simp [hp]

theorem txUpdate_frame (spec : TableSpec) (t : Table) (rid : Int) (data : Payload)
    (b : Bool) (t' : Table)
    (h : txUpdate spec (some t) rid data = (.ok b, some t'))
    (c : String) (hc : c ∉ keysOf data) :
    List.Forall₂ (fun old new => rowGet new c = rowGet old c) t.rows t'.rows := by
  simp only [txUpdate] at h
  split_ifs at h with h1 h2 h3
  · simp at h
  · simp at h
  · obtain ⟨-, h2⟩ := Prod.mk.injEq .. ▸ h
    obtain rfl : t' = _ := (Option.some_inj.1 h2).symm
    exact forall2_update_frame t.rows _ (keysOf data) _ c hc
  · simp at h


/-- The success case of the patient UPDATE keeps every column outside the
payload's key list unchanged in every row. -/
theorem patientUpdate_frame (t : Table) (pid : Int) (data : Payload)
    (b : Bool) (t' : Table)
    (h : patientUpdate (some t) pid data = (.ok b, some t'))
    (c : String) (hc : c ∉ keysOf data) :
    List.Forall₂ (fun old new => rowGet new c = rowGet old c) t.rows t'.rows := by
  simp only [patientUpdate] at h
  split_ifs at h with h1 h2 h3 h4
  · simp at h
  · simp at h
  · simp at h
  · obtain ⟨-, h5⟩ := Prod.mk.injEq .. ▸ h
    obtain rfl : t' = _ := (Option.some_inj.1 h5).symm
    exact forall2_update_frame t.rows _ (keysOf data) _ c hc
  · simp at h

/-- The success case of the lab UPDATE keeps every column outside the
payload's key list unchanged in every row. -/
theorem labUpdate_frame (t : Table) (rid : Int) (data : Payload)
    (b : Bool) (t' : Table)
    (h : labUpdate (some t) rid data = (.ok b, some t'))
    (c : String) (hc : c ∉ keysOf data) :
    List.Forall₂ (fun old new => rowGet new c = rowGet old c) t.rows t'.rows := by
  simp only [labUpdate] at h
  split_ifs at h with h1 h2 h3 h4
  · simp at h
  · simp at h
  · simp at h
  · obtain ⟨-, h5⟩ := Prod.mk.injEq .. ▸ h
    obtain rfl : t' = _ := (Option.some_inj.1 h5).symm
    exact forall2_update_frame t.rows _ (keysOf data) _ c hc
  · simp at h


/-! ### Claim theorems -/

/-- C1: `LabDataAccess.get_by_id` does not look up the identity column.  The
record the accessor itself just inserted (assigned id 1, `patient_id` stored
NULL because the INSERT never binds it) is returned for no id at all, and on
a store holding the single row with identity 1 and `patient_id` 2,
`get_by_id(1)` returns the absence marker while `get_by_id(2)` returns the
row whose identity is 1 — the lookup is keyed on `patient_id`, not on the
row's identity. -/
theorem C1_lab_get_by_id_keyed_on_patient_id :
    labInsert (some Table.empty)
        [("patient_id", .int 1), ("logtime", .int 1000), ("sampled_time", .int 900),
         ("result_time", .int 1100), ("dtx", .int 120), ("ph", .int 7),
         ("k", .int 4), ("na", .int 140)]
      = (.ok 1, some ⟨[[("id", .int 1), ("patient_id", .none), ("logtime", .int 1000),
          ("sampled_time", .int 900), ("result_time", .int 1100), ("dtx", .int 120),
          ("ph", .int 7), ("k", .int 4), ("na", .int 140), ("ag", .none), ("ketone", .none)]],
          2⟩)
  ∧ (∀ anyId : Int,
      labGetById (some ⟨[[("id", .int 1), ("patient_id", .none), ("logtime", .int 1000),
          ("sampled_time", .int 900), ("result_time", .int 1100), ("dtx", .int 120),
          ("ph", .int 7), ("k", .int 4), ("na", .int 140), ("ag", .none), ("ketone", .none)]],
          2⟩) anyId = .ok Option.none)
  ∧ labGetById (some ⟨[[("id", .int 1), ("patient_id", .int 2), ("logtime", .int 1000),
        ("sampled_time", .int 900), ("result_time", .int 1100), ("dtx", .none),
        ("ph", .none), ("k", .none), ("na", .none), ("ag", .none), ("ketone", .none)]], 2⟩) 1
      = .ok Option.none
  ∧ labGetById (some ⟨[[("id", .int 1), ("patient_id", .int 2), ("logtime", .int 1000),
        ("sampled_time", .int 900), ("result_time", .int 1100), ("dtx", .none),
        ("ph", .none), ("k", .none), ("na", .none), ("ag", .none), ("ketone", .none)]], 2⟩) 2
      = .ok (some [("id", .int 1), ("patient_id", .int 2), ("logtime", .int 1000),
        ("sampled_time", .int 900), ("result_time", .int 1100), ("dtx", .none),
        ("ph", .none), ("k", .none), ("na", .none), ("ag", .none), ("ketone", .none)]) :=
  ⟨rfl, fun _ => rfl, rfl, rfl⟩

/-- C2: `LabDataAccess.insert` performs no value validation at all: the
payload of the repository's own `test_lab_insert_invalid_data` (glucose
strip −10) is inserted successfully, although `LabResult.validate_input`
flags exactly that value — and a pH outside [0,14] is likewise accepted by
the accessor while the validation routine rejects it.  A payload with every
optional measurement absent does not succeed either: the accessor demands
the `dtx`, `ph`, `k`, `na` keys up front. -/
theorem C2_lab_insert_skips_value_validation :
    (labInsert (some Table.empty)
        [("patient_id", .int 1), ("logtime", .int 1000), ("sampled_time", .int 900),
         ("result_time", .int 1100), ("dtx", .int (-10)), ("ph", .real (37/5)),
         ("k", .real (9/2)), ("na", .int 140)]).1 = .ok 1
  ∧ labValidateInput (some (-10)) (some (37/5)) (some (9/2)) (some 140)
      Option.none Option.none true true = ["Dextrostix cannot be negative."]
  ∧ (labInsert (some Table.empty)
        [("patient_id", .int 1), ("logtime", .int 1000), ("sampled_time", .int 900),
         ("result_time", .int 1100), ("dtx", .int 120), ("ph", .real 15),
         ("k", .real (9/2)), ("na", .int 140)]).1 = .ok 1
  ∧ labValidateInput (some 120) (some 15) (some (9/2)) (some 140)
      Option.none Option.none true true = ["pH level must be between 0 and 14."]
  ∧ (labInsert (some Table.empty)
        [("patient_id", .int 1), ("logtime", .int 1000), ("sampled_time", .int 900),
         ("result_time", .int 1100)]).1
      = .error (.valueError "Missing required keys for insert") := by
  refine ⟨rfl, ?_, rfl, ?_, rfl⟩ <;> norm_num [labValidateInput, negMeasure]

/-- C3: with a non-existent id and a non-empty valid payload, the Patient
and Lab accessors do not return false — they raise `RecordNotFoundError`
from their pre-update existence check (the repository's own
`test_patient_update_non_existent` / `test_lab_update_non_existent` expect a
false return); only the generic transactional update used by the Treatment
accessor returns false without raising. -/
theorem C3_update_non_existent_raises_on_patient_and_lab :
    (patientUpdate (some ⟨[mkPatientRow 1 (.str "HN001") (.str "A") (.int 20) (.str "F")
          PyVal.none], 2⟩) 9999 [("name", .str "Non Existent"), ("age", .int 40)]).1
      = .error (.recordNotFound "Cannot update patient. Record not found.")
  ∧ (labUpdate (some ⟨[[("id", .int 1), ("patient_id", .none), ("logtime", .int 1000),
          ("sampled_time", .int 900), ("result_time", .int 1100), ("dtx", .int 120),
          ("ph", .int 7), ("k", .int 4), ("na", .int 140), ("ag", .none), ("ketone", .none)]],
          2⟩) 9999 [("ph", .real (36/5)), ("k", .int 4)]).1
      = .error (.recordNotFound "Cannot update. Record not found.")
  ∧ treatmentUpdate (some Table.empty) 9999 [("administration_rate", .int 10)]
      = (.ok false, some Table.empty) :=
  ⟨rfl, rfl, rfl⟩

/-- C4: `TreatmentDataAccess.create_table` is overridden to `pass`: it is the
identity on every store, so on a fresh store (table absent) the treatment
table still does not exist afterwards; only the bootstrap script's
`CREATE TABLE IF NOT EXISTS treatment` brings it into existence. -/
theorem C4_treatment_create_table_is_nop :
    (∀ st : Store, treatmentCreateTable st = st)
  ∧ treatmentCreateTable (Option.none : Store) = Option.none
  ∧ bootstrapTreatmentTable (Option.none : Store) = some Table.empty :=
  ⟨fun _ => rfl, rfl, rfl⟩

/-- C5: on the dimensional accessor, `insert`, `update` and `delete` fail for
every store, payload and id with the typed `NotImplementedError`
("operation is not allowed on dimension tables"), leaving the store exactly
as it was — they never silently succeed. -/
theorem C5_dimension_mutations_not_permitted :
    ∀ (st : Store) (data : Payload) (rid : Int),
      dimInsert st data
        = (.error (.notImplemented "Insert operation is not allowed on dimension tables."), st)
    ∧ dimUpdate st rid data
        = (.error (.notImplemented "Update operation is not allowed on dimension tables."), st)
    ∧ dimDelete st rid
        = (.error (.notImplemented "Delete operation is not allowed on dimension tables."), st) :=
  fun _ _ _ => ⟨rfl, rfl, rfl⟩

/-- C6 counterexample: on the Patient accessor a key that is present but
null IS applied.  Updating patient 1 with `{"medical_history": None}`
succeeds and nulls the field out, although the claim says a field not named
by a present-and-non-null key keeps its value ("x" here). -/
theorem C6_counterexample_null_valued_key_is_applied :
    patientUpdate (some ⟨[mkPatientRow 1 (.str "HN001") (.str "A") (.int 20) (.str "F")
          (.str "x")], 2⟩) 1 [("medical_history", PyVal.none)]
      = (.ok true, some ⟨[mkPatientRow 1 (.str "HN001") (.str "A") (.int 20) (.str "F")
          PyVal.none], 2⟩)
  ∧ rowGet (mkPatientRow 1 (.str "HN001") (.str "A") (.int 20) (.str "F") (.str "x"))
        "medical_history" = .str "x"
  ∧ rowGet (mkPatientRow 1 (.str "HN001") (.str "A") (.int 20) (.str "F") PyVal.none)
        "medical_history" = PyVal.none :=
  ⟨rfl, rfl, rfl⟩

/-- C6 (amended): for every transactional accessor, a successful update
applies only the keys present in the payload — every column of every row
not named by a present key holds the same value afterwards; on the
Treatment accessor the applied keys are further cut down to its known
fields with non-null values, so there a null-valued or unknown key is never
applied.  (On the Patient and Lab accessors a present key with a null value
IS applied and nulls the field, per the counterexample.) -/
theorem C6_update_applies_only_present_keys :
    (∀ (t : Table) (pid : Int) (data : Payload) (b : Bool) (t' : Table),
        patientUpdate (some t) pid data = (.ok b, some t') →
        ∀ c, c ∉ keysOf data →
          List.Forall₂ (fun old new => rowGet new c = rowGet old c) t.rows t'.rows)
  ∧ (∀ (t : Table) (rid : Int) (data : Payload) (b : Bool) (t' : Table),
        labUpdate (some t) rid data = (.ok b, some t') →
        ∀ c, c ∉ keysOf data →
          List.Forall₂ (fun old new => rowGet new c = rowGet old c) t.rows t'.rows)
  ∧ (∀ (t : Table) (rid : Int) (data : Payload) (b : Bool) (t' : Table),
        treatmentUpdate (some t) rid data = (.ok b, some t') →
        ∀ c, c ∉ keysOf (treatmentFilteredPayload data) →
          List.Forall₂ (fun old new => rowGet new c = rowGet old c) t.rows t'.rows) := by
  refine ⟨patientUpdate_frame, labUpdate_frame, ?_⟩
  intro t rid data b t' h c hc
  unfold treatmentUpdate at h
  split_ifs at h with h1
  · simp at h
  · exact txUpdate_frame treatmentSpec t rid (treatmentFilteredPayload data) b t' h c hc

/-- C6 witness: instantiating the amended theorem on a one-row patient table
updated with `{"name": "B"}`: the `age` column is untouched. -/
theorem C6_update_applies_only_present_keys_witness :
    List.Forall₂ (fun old new => rowGet new "age" = rowGet old "age")
      [mkPatientRow 1 (.str "HN001") (.str "A") (.int 20) (.str "F") (.str "x")]
      [mkPatientRow 1 (.str "HN001") (.str "B") (.int 20) (.str "F") (.str "x")] :=
  C6_update_applies_only_present_keys.1
    ⟨[mkPatientRow 1 (.str "HN001") (.str "A") (.int 20) (.str "F") (.str "x")], 2⟩ 1
    [("name", PyVal.str "B")] true
    ⟨[mkPatientRow 1 (.str "HN001") (.str "B") (.int 20) (.str "F") (.str "x")], 2⟩
    rfl "age" (by decide)


/-- C7: inserting a valid Patient payload (required keys present with
non-null values, hospital number not yet in the store, next identity still
unused) succeeds with the next identity, and `get_by_id` on that identity
returns exactly the inserted fields with the identity assigned
(`medical_history` defaulting to NULL when absent). -/
theorem C7_patient_insert_then_get_by_id (t : Table) (data : Payload)
    (hreq : patientRequiredKeys.all (fun k => hasKey data k) = true)
    (hhn : lookupD data "hn" ≠ .none) (hnm : lookupD data "name" ≠ .none)
    (hage : lookupD data "age" ≠ .none) (hsex : lookupD data "sex" ≠ .none)
    (huniq : ∀ r ∈ t.rows, sqlEq (rowGet r "hn") (lookupD data "hn") = false)
    (hfresh : ∀ r ∈ t.rows, sqlEq (rowGet r "patient_id") (.int t.nextId) = false) :
    patientInsert (some t) data
      = (.ok t.nextId, some ⟨t.rows ++ [mkPatientRow t.nextId (lookupD data "hn")
          (lookupD data "name") (lookupD data "age") (lookupD data "sex")
          (lookupD data "medical_history")], t.nextId + 1⟩)
  ∧ patientGetById (patientInsert (some t) data).2 t.nextId
      = .ok (some (mkPatientRow t.nextId (lookupD data "hn") (lookupD data "name")
          (lookupD data "age") (lookupD data "sex") (lookupD data "medical_history"))) := by
  have hnotnull : ¬ (lookupD data "hn" = PyVal.none ∨ lookupD data "name" = PyVal.none ∨
      lookupD data "age" = PyVal.none ∨ lookupD data "sex" = PyVal.none) := by
    push_neg
    exact ⟨hhn, hnm, hage, hsex⟩
  have hany : (t.rows.any fun r => sqlEq (rowGet r "hn") (lookupD data "hn")) = false :=
    List.any_eq_false.2 (fun r hr => by simp [huniq r hr])
  have hins : patientInsert (some t) data
      = (.ok t.nextId, some ⟨t.rows ++ [mkPatientRow t.nextId (lookupD data "hn")
          (lookupD data "name") (lookupD data "age") (lookupD data "sex")
          (lookupD data "medical_history")], t.nextId + 1⟩) := by
    simp only [patientInsert, hreq, if_true, hany, Bool.false_eq_true, if_false]
    rw [if_neg hnotnull]
  refine ⟨hins, ?_⟩
  rw [hins]
  simp only [patientGetById, selectById, List.filter_append]
  have hflt : t.rows.filter
      (fun r => sqlEq (rowGet r "patient_id") (PyVal.int t.nextId)) = [] :=
    List.filter_eq_nil_iff.2 (fun r hr => by simp [hfresh r hr])
  rw [hflt]
  have hnew : sqlEq (rowGet (mkPatientRow t.nextId (lookupD data "hn") (lookupD data "name")
      (lookupD data "age") (lookupD data "sex") (lookupD data "medical_history"))
      "patient_id") (PyVal.int t.nextId) = true := by
    simp [mkPatientRow, rowGet, lookupD, lookup?, sqlEq, PyVal.toRat?]
  simp [hnew]

/-- C7 witness: the round trip on a fresh store with the spec scenario
payload `{hn: "HN001", name: "A", age: 20, sex: "F"}`. -/
theorem C7_patient_insert_then_get_by_id_witness :
    patientInsert (some Table.empty)
        [("hn", .str "HN001"), ("name", .str "A"), ("age", .int 20), ("sex", .str "F")]
      = (.ok 1, some ⟨[mkPatientRow 1 (.str "HN001") (.str "A") (.int 20) (.str "F")
          PyVal.none], 2⟩)
  ∧ patientGetById (patientInsert (some Table.empty)
        [("hn", .str "HN001"), ("name", .str "A"), ("age", .int 20), ("sex", .str "F")]).2 1
      = .ok (some (mkPatientRow 1 (.str "HN001") (.str "A") (.int 20) (.str "F")
          PyVal.none)) :=
  C7_patient_insert_then_get_by_id Table.empty
    [("hn", .str "HN001"), ("name", .str "A"), ("age", .int 20), ("sex", .str "F")]
    rfl (by decide) (by decide) (by decide) (by decide)
    (by simp [Table.empty]) (by simp [Table.empty])

/-- C8: a Patient payload missing any of the required keys `hn`, `name`,
`age`, `sex` makes `insert` fail with the Validation failure before any
storage access: the store is returned unchanged and `get_all` is unaffected. -/
theorem C8_patient_insert_missing_required_key (st : Store) (data : Payload)
    (h : ∃ k ∈ patientRequiredKeys, hasKey data k = false) :
    (patientInsert st data).1 = .error (.valueError "Missing required keys for patient insert")
  ∧ (patientInsert st data).2 = st
  ∧ patientGetAll (patientInsert st data).2 = patientGetAll st := by
  have hall : (patientRequiredKeys.all fun k => hasKey data k) = false := by
    rw [List.all_eq_false]
    obtain ⟨k, hk, hfk⟩ := h
    exact ⟨k, hk, by simp [hfk]⟩
  simp [patientInsert, hall]

/-- C8 witness: the repository test's missing-`name` payload on a fresh
store. -/
theorem C8_patient_insert_missing_required_key_witness :
    (patientInsert (some Table.empty)
        [("hn", .str "HN67890"), ("age", .int 25), ("sex", .str "Female"),
         ("medical_history", .str "Asthma")]).1
      = .error (.valueError "Missing required keys for patient insert")
  ∧ (patientInsert (some Table.empty)
        [("hn", .str "HN67890"), ("age", .int 25), ("sex", .str "Female"),
         ("medical_history", .str "Asthma")]).2 = some Table.empty
  ∧ patientGetAll (patientInsert (some Table.empty)
        [("hn", .str "HN67890"), ("age", .int 25), ("sex", .str "Female"),
         ("medical_history", .str "Asthma")]).2 = patientGetAll (some Table.empty) :=
  C8_patient_insert_missing_required_key (some Table.empty)
    [("hn", .str "HN67890"), ("age", .int 25), ("sex", .str "Female"),
     ("medical_history", .str "Asthma")]
    (by decide)

/-- C9: for every accessor, `create_table` is idempotent: the second call
returns the same store the first produced (so it never trips over the
already-existing table) and the row count is unchanged between the calls.
The Treatment accessor's no-op `create_table` is trivially idempotent. -/
theorem C9_create_table_idempotent :
    ∀ st : Store,
      patientCreateTable (patientCreateTable st) = patientCreateTable st
    ∧ labCreateTable (labCreateTable st) = labCreateTable st
    ∧ treatmentCreateTable (treatmentCreateTable st) = treatmentCreateTable st
    ∧ dimCreateTable (dimCreateTable st) = dimCreateTable st
    ∧ txCreateTable (txCreateTable st) = txCreateTable st
    ∧ storeRowCount (patientCreateTable (patientCreateTable st))
        = storeRowCount (patientCreateTable st)
    ∧ storeRowCount (treatmentCreateTable (treatmentCreateTable st))
        = storeRowCount (treatmentCreateTable st) := by
  intro st
  cases st <;>
    simp [patientCreateTable, labCreateTable, treatmentCreateTable, dimCreateTable,
      txCreateTable, createIfNotExists, storeRowCount]

/-- C10: on the Treatment accessor, a non-empty update payload whose seven
known fields all read as null (keys absent, or present with null values —
unknown keys are ignored entirely) is filtered down to an empty payload and
fails with the empty-payload Validation failure, leaving the store
unchanged. -/
theorem C10_treatment_update_all_null_known_fields (st : Store) (rid : Int) (data : Payload)
    (hne : data ≠ [])
    (hnull : ∀ k ∈ treatmentFields, lookupD data k = PyVal.none) :
    treatmentUpdate st rid data = (.error (.valueError "No data provided for update."), st) := by
  have hfilter : treatmentFilteredPayload data = [] := by
    unfold treatmentFilteredPayload
    rw [List.filter_eq_nil_iff]
    intro p hp
    obtain ⟨k, hk, rfl⟩ := List.mem_map.1 hp
    simp [hnull k hk]
  unfold treatmentUpdate
  rw [if_neg hne, hfilter]
  unfold txUpdate
  rw [if_pos rfl]

/-- C10 witness: a payload holding only an unknown key with a non-null value
and a known key with a null value fails with the empty-payload failure. -/
theorem C10_treatment_update_all_null_known_fields_witness :
    treatmentUpdate (some Table.empty) 5
        [("foo", .int 1), ("administration_rate", PyVal.none)]
      = (.error (.valueError "No data provided for update."), some Table.empty) :=
  C10_treatment_update_all_null_known_fields (some Table.empty) 5
    [("foo", .int 1), ("administration_rate", PyVal.none)]
    (by decide) (by decide)

end DKA
